import Mathlib

/-!
Verification of the conversation-transcoding module of antigravity2api-nodejs
(src/utils/utils.js, first snapshot, which the second snapshot duplicates with
variations).  The JavaScript module is shallowly embedded below: JS objects
with a fixed set of possibly-absent fields become Lean structures with Option
fields, JS dynamic message content becomes the Content inductive, JS thrown
TypeErrors become Except.error, and the in-place mutation performed by
convertOpenAIToolsToAntigravity (delete of the $schema key) is made explicit
by returning the post-state of the tool list alongside the result.
Sampling values are never computed with, only passed through, so they are
embedded as Int.
-/

deriving instance DecidableEq for Except

namespace Antigravity

/-- JS `a || b` on a possibly-absent string: the empty string is falsy. -/
def strOr (a : Option String) (b : String) : String :=
  match a with
  | some s => if s = "" then b else s
  | none => b

/-- JS `a || b || ''` on two possibly-absent strings. -/
def strOr2 (a b : Option String) : String :=
  strOr a (strOr b "")

/-- Whitespace recognized by the embedding of String.prototype.trim. -/
def jsWhitespace (c : Char) : Bool :=
  c = ' ' || c = '\t' || c = '\n' || c = '\r' || c = '\x0b' || c = '\x0c'

/-- JS String.prototype.trim. -/
def jsTrim (s : String) : String :=
  String.mk (((s.data.dropWhile jsWhitespace).reverse.dropWhile jsWhitespace).reverse)

/-- JS String.prototype.trimEnd. -/
def jsTrimEnd (s : String) : String :=
  String.mk ((s.data.reverse.dropWhile jsWhitespace).reverse)

/-- Does the first list occur as an initial segment of the second? -/
def charsPre : List Char → List Char → Bool
  | [], _ => true
  | _ :: _, [] => false
  | a :: as, b :: bs => a = b && charsPre as bs

/-- Does the first list occur as a contiguous run anywhere in the second? -/
def charsFind (needle : List Char) : List Char → Bool
  | [] => charsPre needle []
  | b :: bs => charsPre needle (b :: bs) || charsFind needle bs

/-- JS String.prototype.startsWith. -/
def jsStartsWith (s pre : String) : Bool :=
  charsPre pre.data s.data

/-- JS String.prototype.endsWith. -/
def jsEndsWith (s suf : String) : Bool :=
  charsPre suf.data.reverse s.data.reverse

/-- JS String.prototype.includes. -/
def jsIncludes (s sub : String) : Bool :=
  charsFind sub.data s.data

/-- utils.js needsThoughtFlag. -/
def needsThoughtFlag (modelName : String) : Bool :=
  jsStartsWith modelName "gemini-" && jsIncludes modelName "thinking"

/-- utils.js isClaudeThinking. -/
def isClaudeThinking (modelName : String) : Bool :=
  jsIncludes modelName "claude" && jsIncludes modelName "-thinking"

/-- utils.js isEnableThinking. -/
def isEnableThinking (modelName : String) : Bool :=
  jsEndsWith modelName "-thinking" || modelName = "gemini-2.5-pro" ||
  jsStartsWith modelName "gemini-3-pro-" || modelName = "rev19-uic3-1p" ||
  modelName = "gpt-oss-120b-medium"

/-- utils.js modelMapping. -/
def modelMapping (modelName : String) : String :=
  if modelName = "claude-sonnet-4-5-thinking" then "claude-sonnet-4-5"
  else if modelName = "claude-opus-4-5" then "claude-opus-4-5-thinking"
  else if modelName = "gemini-2.5-flash-thinking" then "gemini-2.5-flash"
  else modelName

/-- The value of an upstream thinking field: an object with optional
content and text fields. -/
structure ThinkingObj where
  content : Option String
  text : Option String
deriving DecidableEq

/-- One element of an array-valued message content, as a JS object with the
fields the module reads.  An absent field is none; the thought flag is read
only as a boolean. -/
structure Item where
  type : Option String
  text : Option String
  content : Option String
  thinking : Option ThinkingObj
  image_url : Option String
  thought : Bool
deriving DecidableEq

/-- JS object with only a text field, as built by sanitizeContent. -/
def mkTextItem (t : String) : Item :=
  ⟨none, some t, none, none, none, false⟩

/-- JS object with text and thought fields, the Gemini thought encoding. -/
def mkMarkedItem (t : String) : Item :=
  ⟨none, some t, none, none, none, true⟩

/-- JS object with type thinking and a content field, the Claude thought
encoding. -/
def mkClaudeItem (t : String) : Item :=
  ⟨some "thinking", none, some t, none, none, false⟩

/-- The content field of a source message: a string, an array of items, a
plain object, or null/undefined. -/
inductive Content where
  | str (s : String)
  | arr (items : List Item)
  | obj (item : Item)
  | nullc
deriving DecidableEq

/-- The two object shapes buildThinkingPart can return (besides null). -/
inductive ThinkShape where
  | claude (t : String)
  | marked (t : String)
deriving DecidableEq

/-- utils.js buildThinkingPart: null unless thinking is enabled; the Claude
shape for claude-thinking models, the marked shape for gemini thinking
models, null otherwise. -/
def buildThinkingPart (modelName text : String) (enableThinking : Bool) :
    Option ThinkShape :=
  if !enableThinking then none
  else if isClaudeThinking modelName then some (.claude text)
  else if needsThoughtFlag modelName then some (.marked text)
  else none

/-- The item encoding of a thinking shape (used inside sanitized content). -/
def thinkItem : ThinkShape → Item
  | .claude t => mkClaudeItem t
  | .marked t => mkMarkedItem t

/-- utils.js sanitizeContent on one array element. -/
def sanitizeItem (enableThinking : Bool) (modelName : String) (item : Item) :
    Item :=
  match item.thinking with
  | some th =>
    let txt := strOr2 th.content th.text
    match buildThinkingPart modelName txt enableThinking with
    | some p => thinkItem p
    | none => mkTextItem txt
  | none =>
    if item.type = some "thinking" then
      let txt := strOr2 item.content item.text
      match buildThinkingPart modelName txt enableThinking with
      | some p => thinkItem p
      | none => mkTextItem txt
    else if item.type = some "text" then
      mkTextItem (strOr item.text "")
    else item

/-- utils.js sanitizeContent. -/
def sanitizeContent (content : Content) (enableThinking : Bool)
    (modelName : String) : Content :=
  match content with
  | .str s => .str s
  | .arr items => .arr (items.map (sanitizeItem enableThinking modelName))
  | .obj item =>
    match item.thinking with
    | some th =>
      let txt := strOr2 th.content th.text
      match buildThinkingPart modelName txt enableThinking with
      | some p => .obj (thinkItem p)
      | none => .obj (mkTextItem txt)
    | none => .obj item
  | .nullc => .nullc

/-- One part of an emitted target turn.  These are the only object shapes the
module ever pushes onto a turn's parts array. -/
inductive GPart where
  | text (t : String)
  | thoughtText (t : String)
  | claudeThink (t : String)
  | funcCall (id name : String) (args : List (String × String)) (thought : Bool)
  | funcResp (id name : String) (output : Content)
  | image (mimeType data : String)
deriving DecidableEq

/-- The part encoding of a thinking shape (used inside turn parts). -/
def thinkPart : ThinkShape → GPart
  | .claude t => .claudeThink t
  | .marked t => .thoughtText t

/-- Is the character in the JS regex word class. -/
def isWordChar (c : Char) : Bool :=
  ('a' ≤ c && c ≤ 'z') || ('A' ≤ c && c ≤ 'Z') || ('0' ≤ c && c ≤ '9') || c = '_'

/-- Is the character a JS regex line terminator (not matched by the dot). -/
def isLineTerm (c : Char) : Bool :=
  c = '\n' || c = '\r' || c = '\u2028' || c = '\u2029'

/-- The anchored JS regex match for a base64 image data URI, returning the
captured format and data on success. -/
def parseImageDataUri (url : String) : Option (String × String) :=
  let pre := "data:image/".data
  let cs := url.data
  if charsPre pre cs then
    let rest := cs.drop pre.length
    let fmt := rest.takeWhile isWordChar
    let rest2 := rest.drop fmt.length
    let mid := ";base64,".data
    if fmt ≠ [] && charsPre mid rest2 then
      let data := rest2.drop mid.length
      if data ≠ [] && data.all (fun c => !isLineTerm c) then
        some (String.mk fmt, String.mk data)
      else none
    else none
  else none

/-- Result record of extractImagesFromContent. -/
structure Extracted where
  text : String
  images : List GPart
deriving DecidableEq

/-- One loop iteration of extractImagesFromContent.  Appending an absent text
field reproduces the JS string coercion of undefined. -/
def extractStep (acc : Extracted) (item : Item) : Extracted :=
  if item.type = some "text" then
    { acc with
      text := acc.text ++ (match item.text with
        | some t => t
        | none => "undefined") }
  else if item.type = some "image_url" then
    match parseImageDataUri (strOr item.image_url "") with
    | some fd => { acc with images := acc.images ++ [GPart.image ("image/" ++ fd.1) fd.2] }
    | none => acc
  else acc

/-- utils.js extractImagesFromContent. -/
def extractImagesFromContent : Content → Extracted
  | .str s => ⟨s, []⟩
  | .arr items => items.foldl extractStep ⟨"", []⟩
  | .obj _ => ⟨"", []⟩
  | .nullc => ⟨"", []⟩

/-- Source message roles. -/
inductive SRole where
  | system
  | user
  | assistant
  | tool
deriving DecidableEq

/-- Target turn roles. -/
inductive TRole where
  | user
  | model
deriving DecidableEq

/-- One emitted target turn. -/
structure Turn where
  role : TRole
  parts : List GPart
deriving DecidableEq

/-- The function field of a source tool call. -/
structure ToolCallFn where
  name : String
  arguments : String
deriving DecidableEq

/-- A source tool call. -/
structure ToolCall where
  id : String
  function : ToolCallFn
deriving DecidableEq

/-- A source chat message.  An absent tool_calls field is the empty list and
an absent tool_call_id is the empty string, which the module treats the same
way. -/
structure SourceMessage where
  role : SRole
  content : Content
  tool_calls : List ToolCall
  tool_call_id : String
deriving DecidableEq

/-- utils.js handleUserMessage: always starts a fresh user turn whose first
part is the extracted text, followed by the extracted images. -/
def handleUserMessage (extracted : Extracted) (acc : List Turn) : List Turn :=
  acc ++ [⟨.user, GPart.text extracted.text :: extracted.images⟩]

/-- The JS expression content && content.trim() !== '' : false on null and
the empty string, a TypeError on arrays and objects, the trim test on other
strings. -/
def jsHasContent : Content → Except String Bool
  | .str s => .ok (if s = "" then false else if jsTrim s = "" then false else true)
  | .nullc => .ok false
  | .arr _ => .error "TypeError: content.trim is not a function"
  | .obj _ => .error "TypeError: content.trim is not a function"

/-- The string value of a content known to be a string. -/
def contentText : Content → String
  | .str s => s
  | .arr _ => ""
  | .obj _ => ""
  | .nullc => ""

/-- The fixed placeholder reasoning sentence of handleAssistantMessage. -/
def placeholderThought : String :=
  "I will use the tool to process this request."

/-- The functionCall part built for one source tool call, with the thought
flag attached for gemini thinking models. -/
def mkFunctionCallPart (needsThought : Bool) (tc : ToolCall) : GPart :=
  .funcCall tc.id tc.function.name [("query", tc.function.arguments)] needsThought

/-- The parts list handleAssistantMessage builds when it starts a fresh model
turn. -/
def assistantFreshParts (message : SourceMessage) (hasContent hasToolCalls : Bool)
    (prependThinking : Option ThinkShape) (enableThinking needsThought : Bool)
    (antigravityTools : List GPart) : List GPart :=
  (if hasToolCalls && prependThinking.isSome then (prependThinking.map thinkPart).toList else [])
  ++ (if hasContent then [GPart.text (jsTrimEnd (contentText message.content))]
      else if hasToolCalls && prependThinking.isSome then []
      else if hasToolCalls && enableThinking && needsThought then
        [GPart.thoughtText placeholderThought]
      else [])
  ++ antigravityTools

/-- The pure body of handleAssistantMessage, once hasContent has been
computed. -/
def assistantStep (message : SourceMessage) (acc : List Turn)
    (modelName : String) (enableThinking hasContent : Bool) : List Turn :=
  let hasToolCalls : Bool := !message.tool_calls.isEmpty
  let needsThought := needsThoughtFlag modelName
  let antigravityTools : List GPart :=
    if hasToolCalls then message.tool_calls.map (mkFunctionCallPart needsThought) else []
  let prependThinking : Option ThinkShape :=
    if hasToolCalls then buildThinkingPart modelName placeholderThought enableThinking else none
  match acc.getLast? with
  | some last =>
    if last.role = .model && hasToolCalls && !hasContent then
      acc.dropLast ++
        [⟨last.role, last.parts ++ (prependThinking.map thinkPart).toList ++ antigravityTools⟩]
    else
      acc ++ [⟨.model, assistantFreshParts message hasContent hasToolCalls prependThinking
                enableThinking needsThought antigravityTools⟩]
  | none =>
    acc ++ [⟨.model, assistantFreshParts message hasContent hasToolCalls prependThinking
              enableThinking needsThought antigravityTools⟩]

/-- utils.js handleAssistantMessage.  The only JS expression that can throw
is the hasContent trim test. -/
def handleAssistantMessage (message : SourceMessage) (acc : List Turn)
    (modelName : String) (enableThinking : Bool) : Except String (List Turn) :=
  match jsHasContent message.content with
  | .error e => .error e
  | .ok hasContent => .ok (assistantStep message acc modelName enableThinking hasContent)

/-- Inner loop of handleToolCall: the first functionCall part of the list
whose id matches, together with its name. -/
def findCallInParts (id : String) : List GPart → Option String
  | [] => none
  | GPart.funcCall i n _ _ :: rest => if i = id then some n else findCallInParts id rest
  | _ :: rest => findCallInParts id rest

/-- Outer loop of handleToolCall over the turns in reverse order: a model
turn whose first matching functionCall carries a non-empty name ends the
scan; an empty name (or no match) lets the scan continue. -/
def resolveFnAux (id : String) : List Turn → String
  | [] => ""
  | t :: rest =>
    if t.role = .model then
      match findCallInParts id t.parts with
      | some n => if n = "" then resolveFnAux id rest else n
      | none => resolveFnAux id rest
    else resolveFnAux id rest

/-- The backward function-name resolution of handleToolCall. -/
def resolveFunctionName (turns : List Turn) (id : String) : String :=
  resolveFnAux id turns.reverse

/-- Does the part carry a functionResponse field. -/
def isFuncResp : GPart → Bool
  | .funcResp _ _ _ => true
  | _ => false

/-- utils.js handleToolCall. -/
def handleToolCall (message : SourceMessage) (acc : List Turn) : List Turn :=
  let functionName := resolveFunctionName acc message.tool_call_id
  let fr := GPart.funcResp message.tool_call_id functionName message.content
  match acc.getLast? with
  | some last =>
    if last.role = .user ∧ last.parts.any isFuncResp = true then
      acc.dropLast ++ [⟨last.role, last.parts ++ [fr]⟩]
    else acc ++ [⟨.user, [fr]⟩]
  | none => acc ++ [⟨.user, [fr]⟩]

/-- utils.js deepSanitizeParts on one part.  Of the shapes the module can
emit, only a Claude thinking block matches a sanitizer test: it is kept for
claude-thinking models and demoted to plain text otherwise; no emitted part
carries a thinking field or a nested parts array. -/
def deepSanitizePart (enableThinking : Bool) (modelName : String) : GPart → GPart
  | .claudeThink t => if isClaudeThinking modelName then .claudeThink t else .text t
  | p => p

/-- utils.js deepSanitizeParts. -/
def deepSanitizeParts (parts : List GPart) (enableThinking : Bool)
    (modelName : String) : List GPart :=
  parts.map (deepSanitizePart enableThinking modelName)

/-- One iteration of the message loop of openaiMessageToAntigravity:
sanitize the content, then dispatch on the role. -/
def processMessage (modelName : String) (enableThinking : Bool)
    (acc : List Turn) (message : SourceMessage) : Except String (List Turn) :=
  let sanitized := { message with content := sanitizeContent message.content enableThinking modelName }
  match sanitized.role with
  | .user => .ok (handleUserMessage (extractImagesFromContent sanitized.content) acc)
  | .system => .ok (handleUserMessage (extractImagesFromContent sanitized.content) acc)
  | .assistant => handleAssistantMessage sanitized acc modelName enableThinking
  | .tool => .ok (handleToolCall sanitized acc)

/-- The message loop of openaiMessageToAntigravity: process the messages in
order, growing the accumulated turn list; a thrown TypeError aborts the
loop. -/
def runMessages (modelName : String) (enableThinking : Bool) :
    List Turn → List SourceMessage → Except String (List Turn)
  | acc, [] => .ok acc
  | acc, message :: rest =>
    match processMessage modelName enableThinking acc message with
    | .error e => .error e
    | .ok acc2 => runMessages modelName enableThinking acc2 rest

/-- utils.js openaiMessageToAntigravity. -/
def openaiMessageToAntigravity (messages : List SourceMessage)
    (modelName : String) (enableThinking : Bool) : Except String (List Turn) :=
  runMessages modelName enableThinking [] messages

/-- The optional sampling parameters of a request. -/
structure SamplingParams where
  top_p : Option Int
  top_k : Option Int
  temperature : Option Int
  max_tokens : Option Int
deriving DecidableEq

/-- Modelled from the spec: the process-wide default sampling values read
from config.defaults (config/config.js is not part of the sources). -/
structure ConfigDefaults where
  top_p : Int
  top_k : Int
  temperature : Int
  max_tokens : Int
deriving DecidableEq

/-- The nested thinking sub-config. -/
structure ThinkingConfig where
  includeThoughts : Bool
  thinkingBudget : Int
deriving DecidableEq

/-- The generation config sent to the backend; topP is none when the field
has been deleted. -/
structure GenerationConfig where
  topP : Option Int
  topK : Int
  temperature : Int
  candidateCount : Int
  maxOutputTokens : Int
  stopSequences : List String
  thinkingConfig : ThinkingConfig
deriving DecidableEq

/-- The fixed stop-sequence list of generateGenerationConfig. -/
def stopSequenceList : List String :=
  ["<|user|>", "<|bot|>", "<|context_request|>", "<|endoftext|>", "<|end_of_turn|>"]

/-- utils.js generateGenerationConfig. -/
def generateGenerationConfig (parameters : SamplingParams) (enableThinking : Bool)
    (actualModelName : String) (defaults : ConfigDefaults) : GenerationConfig :=
  let g : GenerationConfig :=
    { topP := some (parameters.top_p.getD defaults.top_p)
      topK := parameters.top_k.getD defaults.top_k
      temperature := parameters.temperature.getD defaults.temperature
      candidateCount := 1
      maxOutputTokens := parameters.max_tokens.getD defaults.max_tokens
      stopSequences := stopSequenceList
      thinkingConfig := ⟨enableThinking, if enableThinking then 1024 else 0⟩ }
  if enableThinking && jsIncludes actualModelName "claude" then { g with topP := none } else g

/-- The function field of an OpenAI tool declaration; the parameter schema is
embedded as a key-value list (JS object keys are unique). -/
structure ToolFunctionSchema where
  name : String
  description : String
  parameters : List (String × String)
deriving DecidableEq

/-- An OpenAI tool declaration. -/
structure OpenAITool where
  function : ToolFunctionSchema
deriving DecidableEq

/-- One converted function declaration. -/
structure FunctionDeclaration where
  name : String
  description : String
  parameters : List (String × String)
deriving DecidableEq

/-- One converted tool declaration: a singleton functionDeclarations array. -/
structure ToolDeclaration where
  functionDeclarations : List FunctionDeclaration
deriving DecidableEq

/-- The JS statement delete parameters.$schema, on the key-value embedding. -/
def deleteSchemaKey (params : List (String × String)) : List (String × String) :=
  params.filter (fun kv => kv.1 != "$schema")

/-- The in-place effect of convertOpenAIToolsToAntigravity on one tool. -/
def stripSchemaFromTool (t : OpenAITool) : OpenAITool :=
  ⟨⟨t.function.name, t.function.description, deleteSchemaKey t.function.parameters⟩⟩

/-- utils.js convertOpenAIToolsToAntigravity.  The JS function mutates its
argument (delete of the $schema key before reading the parameters), so the
embedding returns the converted declarations together with the post-state of
the caller's tool list. -/
def convertOpenAIToolsToAntigravity (openaiTools : Option (List OpenAITool)) :
    List ToolDeclaration × Option (List OpenAITool) :=
  match openaiTools with
  | none => ([], none)
  | some ts =>
    if ts.isEmpty then ([], some ts)
    else
      let mutated := ts.map stripSchemaFromTool
      (mutated.map (fun t =>
        ⟨[⟨t.function.name, t.function.description, t.function.parameters⟩]⟩), some mutated)

/-- The token object consumed from the auth collaborator. -/
structure AuthToken where
  projectId : String
  sessionId : String
deriving DecidableEq

/-- The assembled request envelope (request fields flattened). -/
structure RequestEnvelope where
  project : String
  requestId : String
  contents : List Turn
  systemInstruction : String
  tools : List ToolDeclaration
  functionCallingMode : String
  generationConfig : GenerationConfig
  sessionId : String
  model : String
  userAgent : String
deriving DecidableEq

/-- utils.js generateRequestBody.  The request id and the static system
instruction come from external collaborators and are passed in; the second
component of the result is the post-state of the caller's tool list. -/
def generateRequestBody (openaiMessages : List SourceMessage) (modelName : String)
    (parameters : SamplingParams) (openaiTools : Option (List OpenAITool))
    (token : AuthToken) (defaults : ConfigDefaults)
    (systemInstructionText requestId : String) :
    Except String (RequestEnvelope × Option (List OpenAITool)) :=
  let enableThinking := isEnableThinking modelName
  let actualModelName := modelMapping modelName
  match openaiMessageToAntigravity openaiMessages modelName enableThinking with
  | .error e => .error e
  | .ok contents =>
    let sanitizedContents := contents.map (fun msg =>
      { msg with parts := deepSanitizeParts msg.parts enableThinking modelName })
    let converted := convertOpenAIToolsToAntigravity openaiTools
    .ok ({ project := token.projectId
           requestId := requestId
           contents := sanitizedContents
           systemInstruction := systemInstructionText
           tools := converted.1
           functionCallingMode := "VALIDATED"
           generationConfig := generateGenerationConfig parameters enableThinking actualModelName defaults
           sessionId := token.sessionId
           model := actualModelName
           userAgent := "antigravity" }, converted.2)

/-- Modelled from the spec: the tool-response merge rule in the spec's words,
appending the functionResponse part to the immediately preceding target turn
exactly when that turn has role user and already holds at least one
functionResponse part, and starting a new user turn otherwise. -/
def toolRespMergeSpec (acc : List Turn) (fr : GPart) : List Turn :=
  match acc.getLast? with
  | some last =>
    if last.role = .user ∧ last.parts.any isFuncResp = true then
      acc.dropLast ++ [⟨last.role, last.parts ++ [fr]⟩]
    else acc ++ [⟨.user, [fr]⟩]
  | none => acc ++ [⟨.user, [fr]⟩]

/-- Modelled from the spec: the name-resolution rule in the words of claim
C4, scanning the already-emitted turns most recent first and taking the name
of the very first matching functionCall part of a model turn, whether or not
that name is empty. -/
def specFirstMatchAux (id : String) : List Turn → String
  | [] => ""
  | t :: rest =>
    if t.role = .model then
      match findCallInParts id t.parts with
      | some n => n
      | none => specFirstMatchAux id rest
    else specFirstMatchAux id rest

/-- Modelled from the spec: backward scan wrapper for specFirstMatchAux. -/
def specFirstMatchName (turns : List Turn) (id : String) : String :=
  specFirstMatchAux id turns.reverse

lemma strOr2_some_none (x : String) : strOr2 (some x) none = x := by
  by_cases h : x = "" <;> simp [strOr2, strOr, h]

/-- C6: the built generation config omits topP exactly when thinking is
enabled and the backend model name contains the substring claude; in every
other case topP is present, taken from top_p or the configured default. -/
theorem c6_topP_omission (parameters : SamplingParams) (defaults : ConfigDefaults)
    (enableThinking : Bool) (actualModelName : String) :
    (generateGenerationConfig parameters enableThinking actualModelName defaults).topP
      = if enableThinking && jsIncludes actualModelName "claude" then none
        else some (parameters.top_p.getD defaults.top_p) := by
  cases hb : enableThinking && jsIncludes actualModelName "claude" <;>
    simp [generateGenerationConfig, hb]

/-- C8: the tool-schema converter yields the empty list on an absent or
empty tool list, and otherwise one declaration per tool in order, each a
singleton functionDeclarations array holding the tool's name, description
and parameters with the dollar-schema key removed. -/
theorem c8_convertTools :
    (convertOpenAIToolsToAntigravity none).1 = []
    ∧ (convertOpenAIToolsToAntigravity (some [])).1 = []
    ∧ ∀ ts : List OpenAITool, (convertOpenAIToolsToAntigravity (some ts)).1
        = ts.map (fun t => ⟨[⟨t.function.name, t.function.description,
            deleteSchemaKey t.function.parameters⟩]⟩) := by
  refine ⟨rfl, rfl, ?_⟩
  intro ts
  cases ts with
  | nil => rfl
  | cons a l =>
    simp [convertOpenAIToolsToAntigravity, List.map_map, Function.comp_def,
      stripSchemaFromTool]

/-- C9: modelMapping rewrites exactly its three fixed aliases and returns
every other model identifier unchanged, so in particular an identifier that
merely extends a mapped alias passes through untouched. -/
theorem c9_modelMapping_exact :
    modelMapping "claude-sonnet-4-5-thinking" = "claude-sonnet-4-5"
    ∧ modelMapping "claude-opus-4-5" = "claude-opus-4-5-thinking"
    ∧ modelMapping "gemini-2.5-flash-thinking" = "gemini-2.5-flash"
    ∧ ∀ m : String, m ≠ "claude-sonnet-4-5-thinking" → m ≠ "claude-opus-4-5" →
        m ≠ "gemini-2.5-flash-thinking" → modelMapping m = m := by
  refine ⟨by decide, by decide, by decide, ?_⟩
  intro m h1 h2 h3
  simp [modelMapping, h1, h2, h3]

/-- Witness for C9 at an identifier that has the mapped alias
claude-opus-4-5 as a proper initial segment: it is not rewritten. -/
theorem c9_modelMapping_exact_witness :
    modelMapping "claude-opus-4-5-max" = "claude-opus-4-5-max" :=
  c9_modelMapping_exact.2.2.2 "claude-opus-4-5-max" (by decide) (by decide) (by decide)

/-- C1 counterexample: two consecutive assistant messages, the first with
the visible text hello and no tool calls, the second with one tool call and
empty text, produce a single merged model turn: the second message's
functionCall part is appended to the turn that carries the first message's
text, contradicting the claim that two distinct turns are produced. -/
theorem c1_counterexample :
    openaiMessageToAntigravity
      [⟨.assistant, .str "hello", [], ""⟩,
       ⟨.assistant, .str "", [⟨"c1", ⟨"search", "args1"⟩⟩], ""⟩]
      "gpt-4" (isEnableThinking "gpt-4")
    = .ok [⟨.model, [GPart.text "hello",
        GPart.funcCall "c1" "search" [("query", "args1")] false]⟩]
    ∧ ([⟨.model, [GPart.text "hello",
        GPart.funcCall "c1" "search" [("query", "args1")] false]⟩] : List Turn).length = 1 := by
  constructor
  · decide
  · decide

/-- C2 counterexample: for the model gemini-2.5-pro thinking is enabled and
no thought marker is required, yet an assistant message with one tool call
and empty text yields a turn whose only part is the functionCall: the
placeholder reasoning text is absent, contradicting the claim. -/
theorem c2_counterexample :
    isEnableThinking "gemini-2.5-pro" = true
    ∧ needsThoughtFlag "gemini-2.5-pro" = false
    ∧ openaiMessageToAntigravity
        [⟨.assistant, .str "", [⟨"c1", ⟨"search", "args1"⟩⟩], ""⟩]
        "gemini-2.5-pro" (isEnableThinking "gemini-2.5-pro")
      = .ok [⟨.model, [GPart.funcCall "c1" "search" [("query", "args1")] false]⟩] := by
  refine ⟨by decide, by decide, by decide⟩

/-- C3 counterexample: the model name gemini-claude-thinking requires the
thought marker (needsThoughtFlag), yet normalizing a reasoning object with
thinking enabled yields the Claude thinking block, not the marked Thought
part the claim promises. -/
theorem c3_counterexample :
    needsThoughtFlag "gemini-claude-thinking" = true
    ∧ sanitizeContent (.obj ⟨none, none, none, some ⟨some "X", none⟩, none, false⟩)
        true "gemini-claude-thinking" = .obj (mkClaudeItem "X")
    ∧ Content.obj (mkClaudeItem "X") ≠ Content.obj (mkMarkedItem "X") := by
  refine ⟨by decide, by decide, by decide⟩

/-- C1 amended: the model-turn merge rule looks only at the current source
message, so two consecutive assistant messages, the first with visible text
and no tool calls, the second with tool calls and no text, merge into one
model turn: the text part, then the optional thinking part, then the second
message's functionCall parts. -/
theorem c1_amended (modelName : String) (en : Bool) (s : String) (tcs : List ToolCall)
    (htc : tcs ≠ []) (hs : jsTrim s ≠ "") :
    openaiMessageToAntigravity
      [⟨.assistant, .str s, [], ""⟩, ⟨.assistant, .str "", tcs, ""⟩] modelName en
    = .ok [⟨.model, GPart.text (jsTrimEnd s) ::
        (((buildThinkingPart modelName placeholderThought en).map thinkPart).toList
          ++ tcs.map (mkFunctionCallPart (needsThoughtFlag modelName)))⟩] := by
  have hne : s ≠ "" := by
    intro h
    apply hs
    rw [h]
    decide
  cases tcs with
  | nil => exact absurd rfl htc
  | cons tc rest =>
    simp [openaiMessageToAntigravity, runMessages, processMessage, sanitizeContent,
      handleAssistantMessage, jsHasContent, hne, hs, assistantStep, assistantFreshParts,
      contentText]

/-- C2 amended: an assistant message with one tool call and empty text,
under thinking enabled, a claude-thinking model and no thought marker
required, yields a turn whose parts are exactly the placeholder reasoning
sentence as a Claude thinking block followed by one functionCall part with
the call's id and name and its arguments under a query key; for
thinking-enabled models that are neither claude-thinking nor marker
requiring, the turn holds only the functionCall part. -/
theorem c2_amended (modelName : String) (tc : ToolCall)
    (hen : isEnableThinking modelName = true) :
    (isClaudeThinking modelName = true → needsThoughtFlag modelName = false →
      openaiMessageToAntigravity [⟨.assistant, .str "", [tc], ""⟩] modelName
          (isEnableThinking modelName)
        = .ok [⟨.model, [GPart.claudeThink placeholderThought,
            GPart.funcCall tc.id tc.function.name [("query", tc.function.arguments)] false]⟩])
    ∧ (isClaudeThinking modelName = false → needsThoughtFlag modelName = false →
      openaiMessageToAntigravity [⟨.assistant, .str "", [tc], ""⟩] modelName
          (isEnableThinking modelName)
        = .ok [⟨.model,
            [GPart.funcCall tc.id tc.function.name [("query", tc.function.arguments)] false]⟩]) := by
  constructor
  · intro hcl hng
    simp [openaiMessageToAntigravity, runMessages, processMessage, sanitizeContent,
      handleAssistantMessage, jsHasContent, assistantStep, assistantFreshParts,
      buildThinkingPart, thinkPart, mkFunctionCallPart, hen, hcl, hng]
  · intro hcl hng
    simp [openaiMessageToAntigravity, runMessages, processMessage, sanitizeContent,
      handleAssistantMessage, jsHasContent, assistantStep, assistantFreshParts,
      buildThinkingPart, thinkPart, mkFunctionCallPart, hen, hcl, hng]

/-- C3 amended: normalizing a reasoning object whose content is x, with
thinking enabled and the thought marker required, yields the marked Thought
part with text x provided the model is not also claude-thinking; if the
model is claude-thinking the text survives as a Claude thinking block with
content x; with thinking enabled and neither family matched, or with
thinking disabled, it becomes a plain text part with text x: the reasoning
text is never dropped. -/
theorem c3_amended (modelName x : String) :
    (needsThoughtFlag modelName = true → isClaudeThinking modelName = false →
      sanitizeContent (.obj ⟨none, none, none, some ⟨some x, none⟩, none, false⟩)
        true modelName = .obj (mkMarkedItem x))
    ∧ (isClaudeThinking modelName = true →
      sanitizeContent (.obj ⟨none, none, none, some ⟨some x, none⟩, none, false⟩)
        true modelName = .obj (mkClaudeItem x))
    ∧ (needsThoughtFlag modelName = false → isClaudeThinking modelName = false →
      sanitizeContent (.obj ⟨none, none, none, some ⟨some x, none⟩, none, false⟩)
        true modelName = .obj (mkTextItem x))
    ∧ (sanitizeContent (.obj ⟨none, none, none, some ⟨some x, none⟩, none, false⟩)
        false modelName = .obj (mkTextItem x)) := by
  refine ⟨?_, ?_, ?_, ?_⟩
  · intro hng hcl
    simp [sanitizeContent, buildThinkingPart, thinkItem, strOr2_some_none, hng, hcl]
  · intro hcl
    simp [sanitizeContent, buildThinkingPart, thinkItem, strOr2_some_none, hcl]
  · intro hng hcl
    simp [sanitizeContent, buildThinkingPart, thinkItem, strOr2_some_none, hng, hcl]
  · simp [sanitizeContent, buildThinkingPart, strOr2_some_none]

lemma resolveFnAux_eq_empty (id : String) (l : List Turn)
    (h : ∀ t ∈ l, t.role = .model → findCallInParts id t.parts = none) :
    resolveFnAux id l = "" := by
  induction l with
  | nil => rfl
  | cons t rest ih =>
    have hrest : ∀ u ∈ rest, u.role = .model → findCallInParts id u.parts = none :=
      fun u hu => h u (List.mem_cons_of_mem t hu)
    by_cases hr : t.role = .model
    · simp [resolveFnAux, hr, h t (List.mem_cons_self t rest) hr, ih hrest]
    · simp [resolveFnAux, hr, ih hrest]

/-- C4 counterexample: the backward scan does not stop at the most recent
matching functionCall when that call's name is empty; on this input the most
recent match (per the claim's first-match rule, computed by
specFirstMatchName) has the empty name, yet the emitted functionResponse
carries the name f found in an older turn. -/
theorem c4_counterexample :
    openaiMessageToAntigravity
      [⟨.assistant, .str "", [⟨"1", ⟨"f", "args1"⟩⟩], ""⟩,
       ⟨.user, .str "x", [], ""⟩,
       ⟨.assistant, .str "", [⟨"1", ⟨"", "args1"⟩⟩], ""⟩,
       ⟨.tool, .str "out", [], "1"⟩]
      "gpt-4" (isEnableThinking "gpt-4")
    = .ok [⟨.model, [GPart.funcCall "1" "f" [("query", "args1")] false]⟩,
           ⟨.user, [GPart.text "x"]⟩,
           ⟨.model, [GPart.funcCall "1" "" [("query", "args1")] false]⟩,
           ⟨.user, [GPart.funcResp "1" "f" (.str "out")]⟩]
    ∧ specFirstMatchName
        [⟨.model, [GPart.funcCall "1" "f" [("query", "args1")] false]⟩,
         ⟨.user, [GPart.text "x"]⟩,
         ⟨.model, [GPart.funcCall "1" "" [("query", "args1")] false]⟩] "1" = ""
    ∧ ("f" : String) ≠ "" := by
  refine ⟨by decide, by decide, by decide⟩

/-- C4 amended: the functionResponse name is resolved by scanning the
already-emitted turns most recent first, per model turn considering its
first matching functionCall part, and taking the first such name that is
non-empty; a match whose name is empty lets the scan continue, and if no
model turn yields a non-empty matching name the result is the empty string
(transcoding continues, never an error). -/
theorem c4_amended :
    (∀ (turns : List Turn) (id : String),
      (∀ t ∈ turns, t.role = .model → findCallInParts id t.parts = none) →
      resolveFunctionName turns id = "")
    ∧ (∀ (turns : List Turn) (t : Turn) (id n : String),
      t.role = .model → findCallInParts id t.parts = some n → n ≠ "" →
      resolveFunctionName (turns ++ [t]) id = n)
    ∧ (∀ (turns : List Turn) (t : Turn) (id : String),
      t.role = .model → findCallInParts id t.parts = some "" →
      resolveFunctionName (turns ++ [t]) id = resolveFunctionName turns id)
    ∧ (∀ (turns : List Turn) (t : Turn) (id : String),
      t.role ≠ .model ∨ findCallInParts id t.parts = none →
      resolveFunctionName (turns ++ [t]) id = resolveFunctionName turns id) := by
  refine ⟨?_, ?_, ?_, ?_⟩
  · intro turns id h
    exact resolveFnAux_eq_empty id turns.reverse
      (fun t ht => h t (List.mem_reverse.mp ht))
  · intro turns t id n hr hf hn
    simp [resolveFunctionName, List.reverse_append, resolveFnAux, hr, hf, hn]
  · intro turns t id hr hf
    simp [resolveFunctionName, List.reverse_append, resolveFnAux, hr, hf]
  · intro turns t id h
    rcases h with h | h
    · simp [resolveFunctionName, List.reverse_append, resolveFnAux, h]
    · by_cases hr : t.role = .model
      · simp [resolveFunctionName, List.reverse_append, resolveFnAux, hr, h]
      · simp [resolveFunctionName, List.reverse_append, resolveFnAux, hr]

/-- C10: every source message of role user or system appends exactly one new
user turn, never merging with the preceding turn; its first part is a text
part (possibly empty) and the remaining parts are the extracted images in
source order. -/
theorem c10_user_turn (modelName : String) (en : Bool) (acc : List Turn)
    (msg : SourceMessage) (h : msg.role = .user ∨ msg.role = .system) :
    processMessage modelName en acc msg = .ok (acc ++
      [⟨.user, GPart.text (extractImagesFromContent (sanitizeContent msg.content en modelName)).text
         :: (extractImagesFromContent (sanitizeContent msg.content en modelName)).images⟩]) := by
  obtain ⟨r, c, tcs, tid⟩ := msg
  rcases h with h | h
  · replace h : r = .user := h
    subst h
    simp [processMessage, handleUserMessage]
  · replace h : r = .system := h
    subst h
    simp [processMessage, handleUserMessage]

lemma processMessage_tool (modelName : String) (en : Bool) (acc : List Turn)
    (msg : SourceMessage) (h : msg.role = .tool) :
    processMessage modelName en acc msg =
      .ok (toolRespMergeSpec acc (GPart.funcResp msg.tool_call_id
        (resolveFunctionName acc msg.tool_call_id)
        (sanitizeContent msg.content en modelName))) := by
  obtain ⟨r, c, tcs, tid⟩ := msg
  replace h : r = .tool := h
  subst h
  simp [processMessage, handleToolCall, toolRespMergeSpec]

lemma toolRespMergeSpec_getLast (acc : List Turn) (fr : GPart) :
    ∃ pre, (toolRespMergeSpec acc fr).getLast? = some ⟨.user, pre ++ [fr]⟩ := by
  cases hl : acc.getLast? with
  | none => exact ⟨[], by simp [toolRespMergeSpec, hl, List.getLast?_concat]⟩
  | some last =>
    by_cases hc : last.role = .user ∧ last.parts.any isFuncResp = true
    · obtain ⟨hcr, hcp⟩ := hc
      exact ⟨last.parts, by simp [toolRespMergeSpec, hl, hcr, hcp, List.getLast?_concat]⟩
    · refine ⟨[], ?_⟩
      simp only [toolRespMergeSpec, hl]
      rw [if_neg hc, List.getLast?_concat]
      simp

lemma toolRespMergeSpec_twice (acc : List Turn) (fr1 fr2 : GPart)
    (h1 : isFuncResp fr1 = true) :
    ∃ pre, (toolRespMergeSpec (toolRespMergeSpec acc fr1) fr2).getLast? =
      some ⟨.user, pre ++ [fr1, fr2]⟩ := by
  obtain ⟨pre, hlast⟩ := toolRespMergeSpec_getLast acc fr1
  refine ⟨pre, ?_⟩
  set x := toolRespMergeSpec acc fr1 with hx
  simp [toolRespMergeSpec, hlast, List.getLast?_concat, List.any_append, h1,
    List.append_assoc]

/-- C5: a tool message's functionResponse part is appended to the
immediately preceding target turn exactly when that turn has role user and
already holds a functionResponse part, and otherwise starts a new user
turn (the behaviour of toolRespMergeSpec); consequently two consecutive
tool messages always end up as two functionResponse parts in source order
inside a single user turn. -/
theorem c5_tool_response_merge :
    (∀ (modelName : String) (en : Bool) (acc : List Turn) (msg : SourceMessage),
      msg.role = .tool →
      processMessage modelName en acc msg =
        .ok (toolRespMergeSpec acc (GPart.funcResp msg.tool_call_id
          (resolveFunctionName acc msg.tool_call_id)
          (sanitizeContent msg.content en modelName))))
    ∧ (∀ (modelName : String) (en : Bool) (acc acc2 : List Turn)
        (m1 m2 : SourceMessage),
      m1.role = .tool → m2.role = .tool →
      runMessages modelName en acc [m1, m2] = .ok acc2 →
      ∃ pre n1 n2, acc2.getLast? = some ⟨.user, pre ++
        [GPart.funcResp m1.tool_call_id n1 (sanitizeContent m1.content en modelName),
         GPart.funcResp m2.tool_call_id n2 (sanitizeContent m2.content en modelName)]⟩) := by
  constructor
  · exact processMessage_tool
  · intro modelName en acc acc2 m1 m2 h1 h2 hrun
    have e1 := processMessage_tool modelName en acc m1 h1
    have e2 := processMessage_tool modelName en
      (toolRespMergeSpec acc (GPart.funcResp m1.tool_call_id
        (resolveFunctionName acc m1.tool_call_id)
        (sanitizeContent m1.content en modelName))) m2 h2
    simp only [runMessages, e1, e2, Except.ok.injEq] at hrun
    subst hrun
    obtain ⟨pre, hp⟩ := toolRespMergeSpec_twice acc
      (GPart.funcResp m1.tool_call_id (resolveFunctionName acc m1.tool_call_id)
        (sanitizeContent m1.content en modelName))
      (GPart.funcResp m2.tool_call_id
        (resolveFunctionName
          (toolRespMergeSpec acc (GPart.funcResp m1.tool_call_id
            (resolveFunctionName acc m1.tool_call_id)
            (sanitizeContent m1.content en modelName))) m2.tool_call_id)
        (sanitizeContent m2.content en modelName))
      rfl
    exact ⟨pre, _, _, hp⟩

lemma deleteSchemaKey_id (ps : List (String × String))
    (h : ps.all (fun kv => kv.1 != "$schema") = true) : deleteSchemaKey ps = ps := by
  unfold deleteSchemaKey
  exact List.filter_eq_self.mpr (by simpa [List.all_eq_true] using h)

/-- C7 counterexample: the request-body builder is not pure with respect to
the caller's tool list: a tool whose parameter object carries the
dollar-schema key comes back with that key deleted, so the post-state of
the tool list differs from the input. -/
theorem c7_counterexample :
    (generateRequestBody [] "gpt-4" ⟨none, none, none, none⟩
        (some [⟨⟨"f", "d", [("$schema", "x"), ("type", "object")]⟩⟩])
        ⟨"p", "s"⟩ ⟨1, 2, 3, 4⟩ "si" "rid").map Prod.snd
      = .ok (some [⟨⟨"f", "d", [("type", "object")]⟩⟩])
    ∧ (some [(⟨⟨"f", "d", [("type", "object")]⟩⟩ : OpenAITool)]
        ≠ some [⟨⟨"f", "d", [("$schema", "x"), ("type", "object")]⟩⟩]) := by
  refine ⟨by decide, by decide⟩

/-- C7 amended: the transform leaves the message list and sampling
parameters untouched, but mutates the caller's tool list: each tool's
parameter object loses its dollar-schema key; the tool list survives
unchanged exactly when no tool carries that key; an absent tool list stays
absent; and the post-state the request-body builder reports is exactly the
converter's post-state. -/
theorem c7_amended :
    (∀ ts : List OpenAITool,
      (convertOpenAIToolsToAntigravity (some ts)).2 = some (ts.map stripSchemaFromTool))
    ∧ (∀ ts : List OpenAITool,
      (∀ t ∈ ts, t.function.parameters.all (fun kv => kv.1 != "$schema") = true) →
      (convertOpenAIToolsToAntigravity (some ts)).2 = some ts)
    ∧ (convertOpenAIToolsToAntigravity none).2 = none
    ∧ (∀ (msgs : List SourceMessage) (modelName : String) (p : SamplingParams)
        (tools : Option (List OpenAITool)) (tok : AuthToken) (defs : ConfigDefaults)
        (si rid : String) (env : RequestEnvelope) (after : Option (List OpenAITool)),
      generateRequestBody msgs modelName p tools tok defs si rid = .ok (env, after) →
      after = (convertOpenAIToolsToAntigravity tools).2) := by
  refine ⟨?_, ?_, rfl, ?_⟩
  · intro ts
    cases ts with
    | nil => rfl
    | cons a l => simp [convertOpenAIToolsToAntigravity]
  · intro ts h
    have hmap : ts.map stripSchemaFromTool = ts := by
      induction ts with
      | nil => rfl
      | cons a l ih =>
        have ha := h a (List.mem_cons_self a l)
        have hl : ∀ t ∈ l, t.function.parameters.all (fun kv => kv.1 != "$schema") = true :=
          fun t ht => h t (List.mem_cons_of_mem a ht)
        obtain ⟨⟨n, d, ps⟩⟩ := a
        simp only [List.map_cons, ih hl, stripSchemaFromTool]
        rw [deleteSchemaKey_id ps ha]
    cases ts with
    | nil => rfl
    | cons a l =>
      simpa [convertOpenAIToolsToAntigravity] using hmap
  · intro msgs modelName p tools tok defs si rid env after hgen
    cases hrun : openaiMessageToAntigravity msgs modelName (isEnableThinking modelName) with
    | error e => simp [generateRequestBody, hrun] at hgen
    | ok contents =>
      simp only [generateRequestBody, hrun, Except.ok.injEq, Prod.mk.injEq] at hgen
      exact hgen.2.symm

/-- Witness for C1 amended at a concrete pair of assistant messages under a
non-thinking model. -/
theorem c1_amended_witness :
    openaiMessageToAntigravity
      [⟨.assistant, .str "hello", [], ""⟩,
       ⟨.assistant, .str "", [⟨"c1", ⟨"search", "args1"⟩⟩], ""⟩] "gpt-4" false
    = .ok [⟨.model, [GPart.text "hello",
        GPart.funcCall "c1" "search" [("query", "args1")] false]⟩] := by
  have h := c1_amended "gpt-4" false "hello" [⟨"c1", ⟨"search", "args1"⟩⟩]
    (by decide) (by decide)
  rw [h]
  decide

/-- Witness for C2 amended at a claude-thinking model and at a
thinking-enabled model of neither family. -/
theorem c2_amended_witness :
    openaiMessageToAntigravity
      [⟨.assistant, .str "", [⟨"c1", ⟨"search", "args1"⟩⟩], ""⟩]
      "claude-sonnet-4-5-thinking" (isEnableThinking "claude-sonnet-4-5-thinking")
    = .ok [⟨.model, [GPart.claudeThink placeholderThought,
        GPart.funcCall "c1" "search" [("query", "args1")] false]⟩]
    ∧ openaiMessageToAntigravity
      [⟨.assistant, .str "", [⟨"c1", ⟨"search", "args1"⟩⟩], ""⟩]
      "gpt-oss-120b-medium" (isEnableThinking "gpt-oss-120b-medium")
    = .ok [⟨.model, [GPart.funcCall "c1" "search" [("query", "args1")] false]⟩] := by
  constructor
  · exact (c2_amended "claude-sonnet-4-5-thinking" ⟨"c1", ⟨"search", "args1"⟩⟩
      (by decide)).1 (by decide) (by decide)
  · exact (c2_amended "gpt-oss-120b-medium" ⟨"c1", ⟨"search", "args1"⟩⟩
      (by decide)).2 (by decide) (by decide)

/-- Witness for C3 amended at a gemini thinking model. -/
theorem c3_amended_witness :
    sanitizeContent (.obj ⟨none, none, none, some ⟨some "X", none⟩, none, false⟩)
      true "gemini-2.5-flash-thinking" = .obj (mkMarkedItem "X")
    ∧ sanitizeContent (.obj ⟨none, none, none, some ⟨some "X", none⟩, none, false⟩)
      false "gemini-2.5-flash-thinking" = .obj (mkTextItem "X") := by
  constructor
  · exact (c3_amended "gemini-2.5-flash-thinking" "X").1 (by decide) (by decide)
  · exact (c3_amended "gemini-2.5-flash-thinking" "X").2.2.2

/-- Witness for C4 amended, exercising all four clauses at concrete turn
lists. -/
theorem c4_amended_witness :
    resolveFunctionName [⟨.user, [GPart.text "x"]⟩] "1" = ""
    ∧ resolveFunctionName ([] ++ [⟨.model, [GPart.funcCall "1" "f" [] false]⟩]) "1" = "f"
    ∧ resolveFunctionName
        ([⟨.model, [GPart.funcCall "1" "f" [] false]⟩] ++
          [⟨.model, [GPart.funcCall "1" "" [] false]⟩]) "1"
      = resolveFunctionName [⟨.model, [GPart.funcCall "1" "f" [] false]⟩] "1"
    ∧ resolveFunctionName
        ([⟨.model, [GPart.funcCall "1" "f" [] false]⟩] ++ [⟨.user, [GPart.text "x"]⟩]) "1"
      = resolveFunctionName [⟨.model, [GPart.funcCall "1" "f" [] false]⟩] "1" := by
  refine ⟨?_, ?_, ?_, ?_⟩
  · exact c4_amended.1 [⟨.user, [GPart.text "x"]⟩] "1" (by decide)
  · exact c4_amended.2.1 [] ⟨.model, [GPart.funcCall "1" "f" [] false]⟩ "1" "f"
      (by decide) (by decide) (by decide)
  · exact c4_amended.2.2.1 [⟨.model, [GPart.funcCall "1" "f" [] false]⟩]
      ⟨.model, [GPart.funcCall "1" "" [] false]⟩ "1" (by decide) (by decide)
  · exact c4_amended.2.2.2 [⟨.model, [GPart.funcCall "1" "f" [] false]⟩]
      ⟨.user, [GPart.text "x"]⟩ "1" (Or.inl (by decide))

/-- Witness for C5 at a concrete pair of consecutive tool messages. -/
theorem c5_tool_response_merge_witness :
    processMessage "gpt-4" false [] ⟨.tool, .str "out", [], "1"⟩
      = .ok [⟨.user, [GPart.funcResp "1" "" (.str "out")]⟩]
    ∧ ∃ pre n1 n2,
      ([⟨.user, [GPart.funcResp "1" "" (.str "o1"),
          GPart.funcResp "2" "" (.str "o2")]⟩] : List Turn).getLast?
        = some ⟨.user, pre ++ [GPart.funcResp "1" n1 (.str "o1"),
            GPart.funcResp "2" n2 (.str "o2")]⟩ := by
  constructor
  · have h := c5_tool_response_merge.1 "gpt-4" false [] ⟨.tool, .str "out", [], "1"⟩ rfl
    rw [h]
    decide
  · exact c5_tool_response_merge.2 "gpt-4" false []
      [⟨.user, [GPart.funcResp "1" "" (.str "o1"), GPart.funcResp "2" "" (.str "o2")]⟩]
      ⟨.tool, .str "o1", [], "1"⟩ ⟨.tool, .str "o2", [], "2"⟩ rfl rfl (by decide)

/-- Witness for C7 amended: a schema-free tool list passes through
unchanged, and the builder's reported post-state matches the converter's on
a concrete invocation. -/
theorem c7_amended_witness :
    (convertOpenAIToolsToAntigravity (some [⟨⟨"f", "d", [("type", "object")]⟩⟩])).2
      = some [⟨⟨"f", "d", [("type", "object")]⟩⟩]
    ∧ (none : Option (List OpenAITool)) = (convertOpenAIToolsToAntigravity none).2 := by
  constructor
  · exact c7_amended.2.1 [⟨⟨"f", "d", [("type", "object")]⟩⟩] (by decide)
  · exact c7_amended.2.2.2 [] "gpt-4" ⟨none, none, none, none⟩ none ⟨"p", "s"⟩
      ⟨1, 2, 3, 4⟩ "si" "rid"
      ⟨"p", "rid", [], "si", [], "VALIDATED",
        ⟨some 1, 2, 3, 1, 4, stopSequenceList, ⟨false, 0⟩⟩, "s", "gpt-4", "antigravity"⟩
      none (by decide)

/-- Witness for C10 at a concrete user message mixing a text part and a
base64 image part. -/
theorem c10_user_turn_witness :
    processMessage "gpt-4" false []
      ⟨.user, .arr [⟨some "text", some "hi", none, none, none, false⟩,
        ⟨some "image_url", none, none, none,
          some "data:image/png;base64,AAAA", false⟩], [], ""⟩
    = .ok [⟨.user, [GPart.text "", GPart.image "image/png" "AAAA"]⟩] := by
  have h := c10_user_turn "gpt-4" false []
    ⟨.user, .arr [⟨some "text", some "hi", none, none, none, false⟩,
      ⟨some "image_url", none, none, none,
        some "data:image/png;base64,AAAA", false⟩], [], ""⟩ (Or.inl rfl)
  rw [h]
  decide

end Antigravity
